import Mathlib

/-
  A shallow embedding of the coordination core of the proxyratemanager
  repository (lib/ProxyRateManager.js, lib/ProxyRateClient.js,
  lib/ProxyCircuit.js, lib/AdvancedProxiedRequest.js).

  Conventions of the embedding:
  - JS objects used as string-keyed dictionaries become insertion-ordered
    association lists (ObjMap); for-in loops iterate those lists in order.
  - Timestamps are Nat milliseconds; the current clock value is threaded as
    an explicit argument named now.
  - JS runtime failures are explicit: DIE(...) calls, TypeErrors from
    property access on undefined, and ReferenceErrors from reading
    undeclared identifiers under "use strict" become the JSErr type, and
    fallible operations return Except JSErr.
  - JS reference identity of circuit objects is modelled by a ref field;
    mutation of a shared circuit object is made explicit by updating every
    aliased copy with the same ref.
  - Process management (starting and killing the tor daemon), file I/O
    (the persistence cache), network probes (the external IP lookup) and
    timers are external effects: probes are threaded as explicit arguments,
    and cache writes and process signals do not change the modelled state.
  - The unbounded randomness of Math.random is threaded as a finite list of
    draws; a draw d selects index d mod pool size, as Math.floor(random *
    length) does.  Running out of supplied draws while the source loop
    would draw again is reported explicitly.
-/

namespace ProxyRate

/-- JS runtime failure modes relevant to the embedded code: a fatal DIE
call with its message, a TypeError from accessing a property of undefined,
and a ReferenceError from reading an undeclared identifier in strict
mode. -/
inductive JSErr where
  | die : String → JSErr
  | typeErr : JSErr
  | refErr : JSErr
deriving DecidableEq, Repr

/-- Insertion-ordered string-keyed map, modelling a JS object used as a
dictionary. -/
abbrev ObjMap (α : Type) := List (String × α)

/-- Key lookup, first match (JS object keys are unique, and omSet keeps
them unique). -/
def omLookup {α : Type} : ObjMap α → String → Option α
  | [], _ => none
  | (k0, v) :: rest, k => if k0 = k then some v else omLookup rest k

/-- Key assignment: overwrite in place if present, append otherwise, as a
JS property write does. -/
def omSet {α : Type} : ObjMap α → String → α → ObjMap α
  | [], k, v => [(k, v)]
  | (k0, v0) :: rest, k, v =>
      if k0 = k then (k, v) :: rest else (k0, v0) :: omSet rest k v

/-- Key removal, modelling the JS delete operator. -/
def omRemove {α : Type} (m : ObjMap α) (k : String) : ObjMap α :=
  m.filter (fun kv => kv.1 != k)

/-- Is an Except value a success? -/
def exceptIsOk {ε α : Type} : Except ε α → Bool
  | .ok _ => true
  | .error _ => false

/-- Coercion of a nullable string to a JS object key: null becomes the
string "null" (template/key coercion). -/
def jsKey : Option String → String
  | some s => s
  | none => "null"

/-- JS truthiness of a nullable string: null and the empty string are
falsy. -/
def jsTruthyStr : Option String → Bool
  | some s => decide (s ≠ "")
  | none => false

/-- A circuit (lib/ProxyCircuit.js).  The ref field models JS object
identity; pollingClient (a mutual reference) and the heal timer handle are
not part of the modelled state. -/
structure Circuit where
  ref : Nat
  host : String
  port : Nat
  username : Option String
  password : Option String
  type : String
  name : Option String
  addToCyclingCircuitPool : Bool
  isLocalTor : Bool
  activeExitNodeIP : Option String
  lastIPPollTime : Nat
  poll_wait_interval : Option Nat
  healInterval : Nat
  healAmountPerInterval : Nat
  health : Nat
  valid : Bool
deriving DecidableEq, Repr

/-- Constructor arguments for ProxyCircuit: none means the key is absent
from the args object. -/
structure CircuitArgs where
  host : Option String
  port : Option Nat
  username : Option String
  password : Option String
  type : Option String
  poll_wait_interval : Option Nat
  name : Option String
  addToCyclingCircuitPool : Option Bool
  isLocalTor : Option Bool
  activeExitNodeIP : Option String
  lastIPPollTime : Option Nat
  healInterval : Option Nat
  healAmountPerInterval : Option Nat
deriving DecidableEq, Repr

/-- The ProxyCircuit constructor.  Source order matters: the line

  this.poll_wait_interval = this.poll_wait_interval ||
    (this.isLocalTor ? 1000 * 5 : 1000 * 60 * 2);

runs BEFORE Object.assign(this, circuitDefaults, args), while both fields
are still undefined, so it always computes 120000; Object.assign then
overwrites that value with the default poll_wait_interval of null unless
args carries the key.  The net field value is therefore args value if
present and null otherwise, which the Option below records. -/
def mkProxyCircuit (args : CircuitArgs) (ref : Nat) : Circuit :=
  let _pollBeforeAssign : Nat := 120000
  { ref := ref
    host := args.host.getD "0.0.0.0"
    port := args.port.getD 9050
    username := args.username
    password := args.password
    type := args.type.getD "socks5h"
    name := args.name
    addToCyclingCircuitPool := args.addToCyclingCircuitPool.getD true
    isLocalTor := args.isLocalTor.getD false
    activeExitNodeIP := args.activeExitNodeIP
    lastIPPollTime := args.lastIPPollTime.getD 0
    poll_wait_interval := args.poll_wait_interval
    healInterval := args.healInterval.getD 1200000
    healAmountPerInterval := args.healAmountPerInterval.getD 10
    health := 100
    valid := true }

/-- getProxyIDString: the connection URL of a proxy. -/
def Circuit.getProxyIDString (c : Circuit) : String :=
  let unpw :=
    if jsTruthyStr c.username || jsTruthyStr c.password then
      c.username.getD "" ++ ":" ++ c.password.getD "" ++ "@"
    else ""
  c.type ++ "://" ++ unpw ++ c.host ++ ":" ++ toString c.port

/-- getIdentifier: the proxy URL, prefixed by the circuit name when that
is truthy. -/
def Circuit.getIdentifier (c : Circuit) : String :=
  (if jsTruthyStr c.name then "(" ++ c.name.getD "" ++ ") " else "")
    ++ c.getProxyIDString

/-- isHealthy: health strictly above 20. -/
def Circuit.isHealthy (c : Circuit) : Bool :=
  decide (20 < c.health)

/-- The mutable core of a ProxyRateManager instance.  Fields that only
feed I/O (cacheFilename, EXTERNAL_IP_CHECK_URL, version) and the clients
array (touched only by createClient and the removal rebind, which draws
fresh randomness) are outside the modelled state; isCurrentlyRestarting is
read only by the poller and the restart path, which are not modelled. -/
structure ManagerState where
  reqStats : ObjMap (ObjMap (List Nat))
  actionLimits : ObjMap Nat
  actionResetTimes : ObjMap Nat
  blacklistedIPs : List String
  pendingCallbacks : List Nat
  isCurrentlyChanging : Bool
  circuits : List Circuit
  namedCircuits : ObjMap Circuit
  numUnFollowsSinceLastIPPollTime : Nat
  numFollowsSinceLastIPPollTime : Nat
deriving DecidableEq, Repr

/-- MAX_CHANGE_TRIES from the ProxyRateManager constructor. -/
def MAX_CHANGE_TRIES : Nat := 7

/-- The default blacklist from the ProxyRateManager constructor. -/
def defaultBlacklistedIPs : List String := ["163.172.67.180"]

/-- addRateLimitActionKey: records the limit and the rolling window size
for an action name.  Existing per-IP series are not backfilled. -/
def addRateLimitActionKey (st : ManagerState) (key : String) (limit timeForRateReset : Nat) :
    ManagerState :=
  { st with
    actionLimits := omSet st.actionLimits key limit
    actionResetTimes := omSet st.actionResetTimes key timeForRateReset }

/-- _initializeIPDataIfNotInitialized: when the IP is untracked, create an
entry with one empty series per action registered AT THIS MOMENT. -/
def initIPDataIfMissing (st : ManagerState) (ip : String) : ManagerState :=
  match omLookup st.reqStats ip with
  | some _ => st
  | none =>
      { st with
        reqStats := omSet st.reqStats ip
          (st.actionLimits.map (fun p => (p.1, ([] : List Nat)))) }

/-- The body of the preen while loop: drop leading timestamps t with
now - t strictly greater than the reset window.  Timestamps above now keep
the series intact, as the JS signed comparison does. -/
def preenSeries (now T : Nat) : List Nat → List Nat
  | [] => []
  | t :: rest => if now - t > T then preenSeries now T rest else t :: rest

/-- The for-in loop of _preenOldRequestsForIP over actionResetTimes.  The
series access this.reqStats[ip][actionName] throws a TypeError when the IP
entry is undefined or when the entry has no series for the action. -/
def preenActions (now : Nat) :
    Option (ObjMap (List Nat)) → List (String × Nat) → Except JSErr (Option (ObjMap (List Nat)))
  | entry?, [] => .ok entry?
  | none, _ :: _ => .error .typeErr
  | some entry, (a, T) :: rest =>
      match omLookup entry a with
      | none => .error .typeErr
      | some series => preenActions now (some (omSet entry a (preenSeries now T series))) rest

/-- _preenOldRequestsForIP. -/
def preenOldRequestsForIP (st : ManagerState) (now : Nat) (ip : String) :
    Except JSErr ManagerState :=
  match preenActions now (omLookup st.reqStats ip) st.actionResetTimes with
  | .error e => .error e
  | .ok none => .ok st
  | .ok (some entry) => .ok { st with reqStats := omSet st.reqStats ip entry }

/-- Fatal message tags for the DIE calls of the source. -/
def missingIPMsg : String := "_onChangedIP - newIp must be provided!"

def actionRequiredMsg : String := "_isIPAvailableForRequests - 2nd argument must be actionName!"

def dupCircuitMsg : String := "addCircuit - Circuit already exists!"

def unnamedRigidMsg : String := "addCircuit Named circuit MUST have a passed name."

def notInPoolMsg : String := "_removeCircuit circuit IS NOT IN this.circuits"

def allUnhealthyMsg : String := "onAllCircuitsUnhealthy - All circuits unhealthy"

def rigidMisuseMsg : String := "changeIPIfNecessary - rigid circuit outside of pool cannot change"

/-- _isIPAvailableForRequests.  Source order: the fresh check precedes the
blacklist check; the null-action DIE precedes the preen; after the preen
the series length is compared with the action limit, where a missing limit
makes the JS comparison with undefined false. -/
def isIPAvailableForRequests (st : ManagerState) (now : Nat) (ip : String)
    (actionName : Option String) : Except JSErr (ManagerState × Bool) :=
  match omLookup st.reqStats ip with
  | none => .ok (st, true)
  | some _ =>
      if ip ∈ st.blacklistedIPs then .ok (st, false)
      else
        match actionName with
        | none => .error (.die actionRequiredMsg)
        | some a =>
            match preenOldRequestsForIP st now ip with
            | .error e => .error e
            | .ok st2 =>
                match (omLookup st2.reqStats ip).bind (fun e => omLookup e a) with
                | none => .error .typeErr
                | some series =>
                    match omLookup st2.actionLimits a with
                    | none => .ok (st2, false)
                    | some lim => .ok (st2, decide (series.length < lim))

/-- _shouldPreenIPData: more than 500 tracked IPs. -/
def shouldPreenIPData (st : ManagerState) : Bool :=
  decide (500 < st.reqStats.length)

/-- The for-in loop of freeOldIPData over the tracked IPs.  After the
preen, the source evaluates c.getCurrentIP() on every circuit of the pool;
ProxyCircuit has no such method, so a non-empty pool throws a TypeError
here.  With an empty pool the count of circuits on the IP is zero and the
entry is deleted exactly when every series is empty (the JS comparison of
the filtered key array against 0). -/
def freeIPLoop (now : Nat) : ManagerState → List String → Except JSErr ManagerState
  | st, [] => .ok st
  | st, ip :: rest =>
      match preenOldRequestsForIP st now ip with
      | .error e => .error e
      | .ok st1 =>
          if st1.circuits.length == 0 then
            match omLookup st1.reqStats ip with
            | none => .error .typeErr
            | some ipStats =>
                let relevant := ipStats.filter (fun kv => decide (0 < kv.2.length))
                let st2 :=
                  if relevant.length == 0 then
                    { st1 with reqStats := omRemove st1.reqStats ip }
                  else st1
                freeIPLoop now st2 rest
          else .error .typeErr

/-- freeOldIPData. -/
def freeOldIPData (st : ManagerState) (now : Nat) : ManagerState → Except JSErr ManagerState :=
  fun _ => freeIPLoop now st (st.reqStats.map (fun kv => kv.1))

/-- The state updates of _onChangedIP that precede the preen decision:
initialize the new IP, clear the changing gate, zero the two counters. -/
def onChangedIPCore (st : ManagerState) (ip : String) : ManagerState :=
  { initIPDataIfMissing st ip with
    isCurrentlyChanging := false
    numUnFollowsSinceLastIPPollTime := 0
    numFollowsSinceLastIPPollTime := 0 }

/-- _onChangedIP.  Returns the new manager state, the updated circuit, and
the list of waiter resolutions fired on the next tick, in queue order,
each carrying the value true. -/
def onChangedIP (st : ManagerState) (now : Nat) (c : Circuit) (newIp? : Option String) :
    Except JSErr (ManagerState × Circuit × List (Nat × Bool)) :=
  match newIp? with
  | none => .error (.die missingIPMsg)
  | some ip =>
      match
        (if shouldPreenIPData (onChangedIPCore st ip) then
          freeIPLoop now (onChangedIPCore st ip)
            ((onChangedIPCore st ip).reqStats.map (fun kv => kv.1))
        else .ok (onChangedIPCore st ip)) with
      | .error e => .error e
      | .ok st4 =>
          .ok ({ st4 with pendingCallbacks := [] },
               { c with activeExitNodeIP := some ip, lastIPPollTime := now },
               st4.pendingCallbacks.map (fun w => (w, true)))

/-- The trailing count i of the while loop of _onUnrequestedIPChange: how
many timestamps from the end of the series are strictly newer than the
last poll time.  (The truthiness test on the point is implied: a timestamp
strictly above a Nat poll time is nonzero.) -/
def trailingCount (lastPoll : Nat) (series : List Nat) : Nat :=
  (series.reverse.takeWhile (fun t => decide (lastPoll < t))).length

/-- actionStats.slice(0, -i): for i = 0 this is slice(0, 0) = [], and for
positive i it is every element except the last i. -/
def sliceZeroNeg (i : Nat) (series : List Nat) : List Nat :=
  if i = 0 then [] else series.take (series.length - i)

/-- The for-in loop of _onUnrequestedIPChange over actionLimits: read the
series of the old IP, compute the ambiguous count, and append the sliced
points to the series of the new IP.  Undefined series accesses throw
TypeErrors as in the source. -/
def catalogLoop (oldKey newIp : String) (lastPoll : Nat) :
    ManagerState → List String → Except JSErr ManagerState
  | st, [] => .ok st
  | st, a :: rest =>
      match omLookup st.reqStats oldKey with
      | none => .error .typeErr
      | some ipStats =>
          match omLookup ipStats a with
          | none => .error .typeErr
          | some actionStats =>
              let i := trailingCount lastPoll actionStats
              let amb := sliceZeroNeg i actionStats
              match omLookup st.reqStats newIp with
              | none => .error .typeErr
              | some newStats =>
                  match omLookup newStats a with
                  | none => .error .typeErr
                  | some cur =>
                      catalogLoop oldKey newIp lastPoll
                        { st with reqStats := omSet st.reqStats newIp (omSet newStats a (cur ++ amb)) }
                        rest

/-- _onUnrequestedIPChange.  The cache write is file I/O with no modelled
state; the commented-out availability check of the source is dead code. -/
def onUnrequestedIPChange (st : ManagerState) (now : Nat) (c : Circuit) (newIp : String) :
    Except JSErr (ManagerState × Circuit × List (Nat × Bool)) :=
  let st0 := { st with isCurrentlyChanging := true }
  let st1 := initIPDataIfMissing st0 newIp
  match catalogLoop (jsKey c.activeExitNodeIP) newIp c.lastIPPollTime st1
      (st1.actionLimits.map (fun kv => kv.1)) with
  | .error e => .error e
  | .ok st2 => onChangedIP st2 now c (some newIp)

/-- _hasCircuit: scans ONLY the cycling pool this.circuits for a matching
identifier; the named registry is not consulted. -/
def hasCircuit (st : ManagerState) (c : Circuit) : Bool :=
  decide (0 < (st.circuits.filter (fun x => x.getIdentifier == c.getIdentifier)).length)

/-- addCircuit.  The external IP probe result is the extIp argument; the
tor daemon startup and the poller launch are external effects.  Source
order: duplicate check, probe, _onChangedIP, then insertion into the
cycling pool or (after the truthy-name check) the named registry. -/
def addCircuit (st : ManagerState) (details : CircuitArgs) (ref now : Nat) (extIp : String) :
    Except JSErr (ManagerState × Circuit × List (Nat × Bool)) :=
  if hasCircuit st (mkProxyCircuit details ref) then .error (.die dupCircuitMsg)
  else
    match onChangedIP st now (mkProxyCircuit details ref) (some extIp) with
    | .error e => .error e
    | .ok (st1, c1, fired) =>
        if c1.addToCyclingCircuitPool then
          .ok ({ st1 with circuits := st1.circuits ++ [c1] }, c1, fired)
        else
          if jsTruthyStr c1.name then
            .ok ({ st1 with namedCircuits := omSet st1.namedCircuits (c1.name.getD "") c1 }, c1,
                 fired)
          else .error (.die unnamedRigidMsg)

/-- markInvalid mutates the shared circuit object, so every aliased copy
in the pool and the registry with the same ref is updated. -/
def markInvalidByRef (st : ManagerState) (ref : Nat) : ManagerState :=
  { st with
    circuits := st.circuits.map (fun x => if x.ref = ref then { x with valid := false } else x)
    namedCircuits := st.namedCircuits.map
      (fun kv => (kv.1, if kv.2.ref = ref then { kv.2 with valid := false } else kv.2)) }

/-- _removeCircuit.  Source branching: a circuit WITH addToCyclingCircuitPool
deletes its name from the NAMED registry, and a circuit WITHOUT the flag is
searched for in the CYCLING pool (DIE when absent).  The client rebind and
the tor teardown that follow touch only the clients array and the daemon
process, which are outside the modelled state. -/
def removeCircuit (st : ManagerState) (c : Circuit) : Except JSErr (ManagerState × Circuit) :=
  let stM := markInvalidByRef st c.ref
  if c.addToCyclingCircuitPool then
    .ok ({ stM with namedCircuits := omRemove stM.namedCircuits (jsKey c.name) },
         { c with valid := false })
  else
    match stM.circuits.findIdx? (fun x => x.ref = c.ref) with
    | none => .error (.die notInPoolMsg)
    | some i => .ok ({ stM with circuits := stM.circuits.eraseIdx i }, { c with valid := false })

/-- areAllCircuitsUnhealthy. -/
def areAllCircuitsUnhealthy (st : ManagerState) : Bool :=
  (st.circuits.filter (fun c => c.isHealthy)).length == 0

/-- The outcome of _getRandomCircuit: the loop may exhaust the supplied
randomness (ranOut), die (all circuits unhealthy), or deliver a circuit
(undefined exactly when the pool is empty in the small-pool branch). -/
inductive RandResult where
  | ranOut : RandResult
  | fatal : JSErr → RandResult
  | picked : Option Circuit → RandResult
deriving DecidableEq, Repr

/-- The do-while of _getRandomCircuit.  A JS continue inside do-while
jumps to the WHILE CONDITION, so a denied unhealthy draw with no
circuitToOmit (or one with a different identifier) falls through the
condition and is returned. -/
def getRandomCircuitLoop (st : ManagerState) (omit? : Option Circuit) (omitUnhealthy : Bool) :
    List Nat → RandResult
  | [] => .ranOut
  | d :: rest =>
      match st.circuits[d % st.circuits.length]? with
      | none => .ranOut
      | some rc =>
          if omitUnhealthy && !rc.isHealthy then
            if areAllCircuitsUnhealthy st then .fatal (.die allUnhealthyMsg)
            else
              match omit? with
              | none => .picked (some rc)
              | some om =>
                  if om.isHealthy then .picked (some om)
                  else
                    if om.getIdentifier == rc.getIdentifier then
                      getRandomCircuitLoop st omit? omitUnhealthy rest
                    else .picked (some rc)
          else
            match omit? with
            | none => .picked (some rc)
            | some om =>
                if om.getIdentifier == rc.getIdentifier then
                  getRandomCircuitLoop st omit? omitUnhealthy rest
                else .picked (some rc)

/-- _getRandomCircuit: pools of at most one circuit return the head (or
undefined) with a warning, bypassing both filters. -/
def getRandomCircuit (st : ManagerState) (omit? : Option Circuit) (omitUnhealthy : Bool)
    (draws : List Nat) : RandResult :=
  if st.circuits.length ≤ 1 then .picked st.circuits.head?
  else getRandomCircuitLoop st omit? omitUnhealthy draws

/-- A ProxyRateClient: the bound circuit is nullable because a rebind
against an empty pool leaves it undefined. -/
structure Client where
  clientId : Nat
  circuit : Option Circuit
  isPollingClient : Bool
deriving DecidableEq, Repr

/-- _changeToRandomCircuit: polling clients never rebind; other clients
draw a fresh circuit from the pool, omitting the current one.  The ok none
outcome records exhaustion of the supplied randomness. -/
def changeToRandomCircuit (cl : Client) (st : ManagerState) (draws : List Nat) :
    Except JSErr (Option Client) :=
  if cl.isPollingClient then .ok (some cl)
  else
    match getRandomCircuit st cl.circuit true draws with
    | .ranOut => .ok none
    | .fatal e => .error e
    | .picked c? => .ok (some { cl with circuit := c? })

/-- _definitivelyChangeToAvailableIP.  Under "use strict" the read of the
undeclared identifier actualExitIP on the line

  if (!actualExitIP) {

throws a ReferenceError on every call, before the retry loop; the
storedExitIP binding and everything after line 605 of the source are
unreachable.  (The thrown error also abandons the isCurrentlyChanging
write that precedes it.) -/
def definitivelyChangeToAvailableIP (st : ManagerState) (c : Circuit) :
    Except JSErr (ManagerState × Circuit) :=
  let _st1 := { st with isCurrentlyChanging := true }
  let _storedExitIP := c.activeExitNodeIP
  .error .refErr

/-- Manager forceIPChangeImmediately.  The DEBUG template on the FIRST
line of the method evaluates circuit.getIdentifier() eagerly, so the
argument-less call the client makes (circuit undefined) throws a
TypeError BEFORE the changing-gate check, whatever the gate holds.  With
a circuit present the identifier string is computed for the log; then,
when a change is in flight, the caller parks on pendingCallbacks and is
resolved with true by the _onChangedIP fan-out (the embedding returns
that eventual value together with the queue extension); otherwise
_definitivelyChangeToAvailableIP runs. -/
def forceIPChangeImmediatelyMgr (st : ManagerState) (c? : Option Circuit) (waiterId : Nat) :
    Except JSErr (ManagerState × Option Bool) :=
  match c? with
  | none => .error .typeErr
  | some c =>
      let _id := c.getIdentifier
      if st.isCurrentlyChanging then
        .ok ({ st with pendingCallbacks := st.pendingCallbacks ++ [waiterId] }, some true)
      else
        match definitivelyChangeToAvailableIP st c with
        | .error e => .error e
        | .ok (st2, _) => .ok (st2, none)

/-- Client forceIPChangeImmediately.  The tor branch calls the manager
method WITHOUT a circuit argument; the rigid branch logs and returns
undefined; the cycling branch rebinds and returns the undefined result of
_changeToRandomCircuit.  Option Bool is the JS return value with none for
undefined. -/
def forceIPChangeImmediately (cl : Client) (st : ManagerState) (waiterId : Nat)
    (draws : List Nat) : Except JSErr (Option (Client × ManagerState × Option Bool)) :=
  match cl.circuit with
  | none => .error .typeErr
  | some c =>
      if c.isLocalTor then
        match forceIPChangeImmediatelyMgr st none waiterId with
        | .error e => .error e
        | .ok (st2, v) => .ok (some (cl, st2, v))
      else
        if !c.addToCyclingCircuitPool then .ok (some (cl, st, none))
        else
          match changeToRandomCircuit cl st draws with
          | .error e => .error e
          | .ok none => .ok none
          | .ok (some cl2) => .ok (some (cl2, st, none))

/-- Client changeIPIfNecessary: DIE on a rigid circuit, false when the
current IP is still available, and otherwise the propagated result of
forceIPChangeImmediately. -/
def changeIPIfNecessary (cl : Client) (st : ManagerState) (now : Nat) (actionName : String)
    (waiterId : Nat) (draws : List Nat) :
    Except JSErr (Option (Client × ManagerState × Option Bool)) :=
  match cl.circuit with
  | none => .error .typeErr
  | some c =>
      if !c.addToCyclingCircuitPool then .error (.die rigidMisuseMsg)
      else
        match isIPAvailableForRequests st now (jsKey c.activeExitNodeIP) (some actionName) with
        | .error e => .error e
        | .ok (st2, true) => .ok (some (cl, st2, some false))
        | .ok (st2, false) => forceIPChangeImmediately cl st2 waiterId draws

/-! Concrete instances used to evaluate the embedded code on the scenarios
of the specification. -/

/-- A manager state with no circuits and a single registered action api
(limit 5, one-day window), three actions recorded on 1.2.3.4 after a poll
at time 1000. -/
def c1St : ManagerState :=
  { reqStats := [("1.2.3.4", [("api", [1001, 1002, 1003])])]
    actionLimits := [("api", 5)]
    actionResetTimes := [("api", 86400000)]
    blacklistedIPs := defaultBlacklistedIPs
    pendingCallbacks := []
    isCurrentlyChanging := false
    circuits := []
    namedCircuits := []
    numUnFollowsSinceLastIPPollTime := 0
    numFollowsSinceLastIPPollTime := 0 }

/-- The circuit observed on 1.2.3.4, last polled at time 1000. -/
def c1Circ : Circuit :=
  { ref := 0
    host := "10.0.0.1"
    port := 9050
    username := none
    password := none
    type := "socks5h"
    name := none
    addToCyclingCircuitPool := true
    isLocalTor := true
    activeExitNodeIP := some "1.2.3.4"
    lastIPPollTime := 1000
    poll_wait_interval := none
    healInterval := 1200000
    healAmountPerInterval := 10
    health := 100
    valid := true }

/-- A manager state that blacklists the default qwerty node IP but has
never tracked it. -/
def c2St : ManagerState :=
  { reqStats := []
    actionLimits := [("api", 2)]
    actionResetTimes := [("api", 86400000)]
    blacklistedIPs := defaultBlacklistedIPs
    pendingCallbacks := []
    isCurrentlyChanging := false
    circuits := []
    namedCircuits := []
    numUnFollowsSinceLastIPPollTime := 0
    numFollowsSinceLastIPPollTime := 0 }

/-- A manager state where the blacklisted IP is tracked (the witness state
for the amended blacklist claim). -/
def c2TrackedSt : ManagerState :=
  { c2St with reqStats := [("163.172.67.180", [("api", [1])])] }

/-- A healthy circuit for the random-selection scenario. -/
def c3Healthy : Circuit :=
  { ref := 0
    host := "1.1.1.1"
    port := 7777
    username := none
    password := none
    type := "socks5h"
    name := none
    addToCyclingCircuitPool := true
    isLocalTor := false
    activeExitNodeIP := some "8.8.8.8"
    lastIPPollTime := 0
    poll_wait_interval := none
    healInterval := 1200000
    healAmountPerInterval := 10
    health := 100
    valid := true }

/-- An unhealthy circuit (health 0) for the random-selection scenario. -/
def c3Unhealthy : Circuit :=
  { c3Healthy with ref := 1, host := "2.2.2.2", health := 0 }

/-- A pool holding one healthy and one unhealthy circuit. -/
def c3St : ManagerState :=
  { c2St with circuits := [c3Healthy, c3Unhealthy] }

/-- A cycling circuit that was added to this.circuits. -/
def c4Cycling : Circuit :=
  { c3Healthy with ref := 0 }

/-- A named circuit that was added to this.namedCircuits under the key
login_proxy. -/
def c4Named : Circuit :=
  { c3Healthy with
    ref := 1
    host := "example.com"
    name := some "login_proxy"
    addToCyclingCircuitPool := false }

/-- The manager state after both additions. -/
def c4St : ManagerState :=
  { c2St with
    circuits := [c4Cycling]
    namedCircuits := [("login_proxy", c4Named)] }

/-- A manager state with two parked waiters and a tracked IP, input of the
onChangedIP postcondition witness. -/
def c5St : ManagerState :=
  { c2St with
    reqStats := [("1.1.1.1", [("api", [5])])]
    pendingCallbacks := [0, 1]
    isCurrentlyChanging := true }

/-- The circuit whose IP is being changed in the witness. -/
def c5Circ : Circuit :=
  { c1Circ with activeExitNodeIP := some "1.1.1.1", lastIPPollTime := 10 }

/-- The manager state _onChangedIP produces from c5St at time 1000 with
new IP 9.9.9.9. -/
def c5StAfter : ManagerState :=
  { c5St with
    reqStats := [("1.1.1.1", [("api", [5])]), ("9.9.9.9", [("api", [])])]
    pendingCallbacks := []
    isCurrentlyChanging := false }

/-- The circuit _onChangedIP produces from c5Circ. -/
def c5CircAfter : Circuit :=
  { c5Circ with activeExitNodeIP := some "9.9.9.9", lastIPPollTime := 1000 }

/-- A client bound to a cycling non-tor circuit whose IP has reached the
api limit. -/
def c7Circ : Circuit :=
  { c3Healthy with activeExitNodeIP := some "7.7.7.7" }

def c7Client : Client :=
  { clientId := 0
    circuit := some c7Circ
    isPollingClient := false }

def c7St : ManagerState :=
  { c2St with
    reqStats := [("7.7.7.7", [("api", [10, 20])])]
    circuits := [c7Circ] }

/-- A rigid (non-cycling) circuit and client for the rigid-misuse witness. -/
def c7RigidCirc : Circuit :=
  { c7Circ with ref := 9, addToCyclingCircuitPool := false, name := some "rigid" }

def c7RigidClient : Client :=
  { clientId := 1
    circuit := some c7RigidCirc
    isPollingClient := false }

/-- The constructor arguments of a non-cycling named circuit, added twice
in the duplicate scenario. -/
def c8Args : CircuitArgs :=
  { host := some "example.com"
    port := some 7777
    username := none
    password := none
    type := none
    poll_wait_interval := none
    name := some "login_proxy"
    addToCyclingCircuitPool := some false
    isLocalTor := none
    activeExitNodeIP := none
    lastIPPollTime := none
    healInterval := none
    healAmountPerInterval := none }

/-- The empty manager the duplicate scenario starts from. -/
def c8St : ManagerState := c2St

/-- Constructor arguments with isLocalTor set and no poll interval, as in
the README tor example. -/
def c9Args : CircuitArgs :=
  { host := some "3.3.3.3"
    port := some 9050
    username := none
    password := none
    type := none
    poll_wait_interval := none
    name := none
    addToCyclingCircuitPool := none
    isLocalTor := some true
    activeExitNodeIP := none
    lastIPPollTime := none
    healInterval := none
    healAmountPerInterval := none }

/-- A manager state tracking IP 5.5.5.5 with a series for api only; the
input of the late-registration witness. -/
def c10St : ManagerState :=
  { c2St with
    reqStats := [("5.5.5.5", [("api", [100])])]
    actionLimits := [("api", 2)]
    actionResetTimes := [("api", 1000)] }

/-! Helper lemmas about the map operations and the preen loop. -/

theorem omLookup_omSet_self {α : Type} (m : ObjMap α) (k : String) (v : α) :
    omLookup (omSet m k v) k = some v := by
  induction m with
  | nil => simp [omSet, omLookup]
  | cons kv rest ih =>
      obtain ⟨k0, v0⟩ := kv
      by_cases h : k0 = k
      · simp [omSet, h, omLookup]
      · simp [omSet, h, omLookup, ih]

theorem omLookup_omSet_ne {α : Type} (m : ObjMap α) (k k2 : String) (v : α) (h : k2 ≠ k) :
    omLookup (omSet m k v) k2 = omLookup m k2 := by
  induction m with
  | nil => simp [omSet, omLookup, Ne.symm h]
  | cons kv rest ih =>
      obtain ⟨k0, v0⟩ := kv
      by_cases h0 : k0 = k
      · subst h0
        simp [omSet, omLookup, Ne.symm h]
      · by_cases h2 : k0 = k2 <;> simp [omSet, h0, omLookup, h2, ih, h]

theorem omSet_key_mem {α : Type} (m : ObjMap α) (k : String) (v : α) :
    k ∈ (omSet m k v).map Prod.fst := by
  induction m with
  | nil => simp [omSet]
  | cons kv rest ih =>
      obtain ⟨k0, v0⟩ := kv
      by_cases h : k0 = k
      · simp [omSet, h]
      · simp only [omSet, if_neg h, List.map_cons, List.mem_cons]
        exact Or.inr ih

theorem preenActions_err_of_missing (now : Nat) (k : String) :
    ∀ (acts : List (String × Nat)) (e : ObjMap (List Nat)),
      k ∈ acts.map Prod.fst → omLookup e k = none →
      preenActions now (some e) acts = .error .typeErr := by
  intro acts
  induction acts with
  | nil => intro e hmem _; simp at hmem
  | cons aT rest ih =>
      intro e hmem hk
      obtain ⟨a, T⟩ := aT
      cases hlo : omLookup e a with
      | none => simp [preenActions, hlo]
      | some s =>
          have hka : k ≠ a := by
            intro hh
            rw [hh, hlo] at hk
            exact Option.noConfusion hk
          have hmem2 : k ∈ rest.map Prod.fst := by
            rw [List.map_cons] at hmem
            rcases List.mem_cons.mp hmem with h1 | h2
            · exact absurd h1 hka
            · exact h2
          have hk2 : omLookup (omSet e a (preenSeries now T s)) k = none := by
            rw [omLookup_omSet_ne _ _ _ _ hka]
            exact hk
          simp [preenActions, hlo, ih _ hmem2 hk2]

theorem preenActions_ok_of_all_present (now : Nat) :
    ∀ (acts : List (String × Nat)) (e : ObjMap (List Nat)),
      (∀ p ∈ acts, (omLookup e p.1).isSome = true) →
      exceptIsOk (preenActions now (some e) acts) = true := by
  intro acts
  induction acts with
  | nil => intro e _; simp [preenActions, exceptIsOk]
  | cons aT rest ih =>
      intro e hall
      obtain ⟨a, T⟩ := aT
      have ha := hall (a, T) (List.mem_cons_self _ _)
      cases hlo : omLookup e a with
      | none => rw [hlo] at ha; simp at ha
      | some s =>
          have hall2 : ∀ p ∈ rest,
              (omLookup (omSet e a (preenSeries now T s)) p.1).isSome = true := by
            intro p hp
            by_cases hpa : p.1 = a
            · rw [hpa, omLookup_omSet_self]
              rfl
            · rw [omLookup_omSet_ne _ _ _ _ hpa]
              exact hall p (List.mem_cons_of_mem _ hp)
          simp [preenActions, hlo, ih _ hall2]

theorem preenActions_err_typeErr (now : Nat) :
    ∀ (acts : List (String × Nat)) (o : Option (ObjMap (List Nat))) (e : JSErr),
      preenActions now o acts = .error e → e = JSErr.typeErr := by
  intro acts
  induction acts with
  | nil => intro o e h; simp [preenActions] at h
  | cons aT rest ih =>
      intro o e h
      obtain ⟨a, T⟩ := aT
      cases o with
      | none =>
          simp [preenActions] at h
          exact h.symm
      | some entry =>
          cases hlo : omLookup entry a with
          | none =>
              simp [preenActions, hlo] at h
              exact h.symm
          | some s =>
              simp only [preenActions, hlo] at h
              exact ih _ _ h

theorem preenOld_err_typeErr (st : ManagerState) (now : Nat) (ip : String) (e : JSErr)
    (h : preenOldRequestsForIP st now ip = .error e) : e = JSErr.typeErr := by
  cases hpa : preenActions now (omLookup st.reqStats ip) st.actionResetTimes with
  | error e2 =>
      simp only [preenOldRequestsForIP, hpa] at h
      injection h with h2
      rw [← h2]
      exact preenActions_err_typeErr now _ _ _ hpa
  | ok o =>
      cases o <;> simp [preenOldRequestsForIP, hpa] at h

theorem preenOld_preserves (st st2 : ManagerState) (now : Nat) (ip : String)
    (h : preenOldRequestsForIP st now ip = .ok st2) :
    st2.pendingCallbacks = st.pendingCallbacks ∧
    st2.isCurrentlyChanging = st.isCurrentlyChanging := by
  cases hpa : preenActions now (omLookup st.reqStats ip) st.actionResetTimes with
  | error e2 => simp [preenOldRequestsForIP, hpa] at h
  | ok o =>
      cases o with
      | none =>
          simp only [preenOldRequestsForIP, hpa] at h
          injection h with h2
          rw [← h2]
          exact ⟨rfl, rfl⟩
      | some entry =>
          simp only [preenOldRequestsForIP, hpa] at h
          injection h with h2
          rw [← h2]
          exact ⟨rfl, rfl⟩

theorem freeIPLoop_err_typeErr (now : Nat) :
    ∀ (ips : List String) (st : ManagerState) (e : JSErr),
      freeIPLoop now st ips = .error e → e = JSErr.typeErr := by
  intro ips
  induction ips with
  | nil => intro st e h; simp [freeIPLoop] at h
  | cons ip rest ih =>
      intro st e h
      cases hp : preenOldRequestsForIP st now ip with
      | error e2 =>
          simp only [freeIPLoop, hp] at h
          injection h with h2
          rw [← h2]
          exact preenOld_err_typeErr _ _ _ _ hp
      | ok st1 =>
          simp only [freeIPLoop, hp] at h
          split at h
          · split at h
            · injection h with h2
              exact h2.symm
            · exact ih _ _ h
          · injection h with h2
            exact h2.symm

theorem freeIPLoop_preserves (now : Nat) :
    ∀ (ips : List String) (st st2 : ManagerState),
      freeIPLoop now st ips = .ok st2 →
      st2.pendingCallbacks = st.pendingCallbacks ∧
      st2.isCurrentlyChanging = st.isCurrentlyChanging := by
  intro ips
  induction ips with
  | nil =>
      intro st st2 h
      simp [freeIPLoop] at h
      rw [h]
      exact ⟨rfl, rfl⟩
  | cons ip rest ih =>
      intro st st2 h
      cases hp : preenOldRequestsForIP st now ip with
      | error e2 => simp [freeIPLoop, hp] at h
      | ok st1 =>
          have hpres := preenOld_preserves st st1 now ip hp
          simp only [freeIPLoop, hp] at h
          split at h
          · split at h
            · exact absurd h (by simp)
            · have hrec := ih _ _ h
              constructor
              · rw [hrec.1]
                split <;> exact hpres.1
              · rw [hrec.2]
                split <;> exact hpres.2
          · exact absurd h (by simp)

theorem onChangedIPCore_pc (st : ManagerState) (ip : String) :
    (onChangedIPCore st ip).pendingCallbacks = st.pendingCallbacks := by
  unfold onChangedIPCore initIPDataIfMissing
  split <;> rfl

theorem onChangedIPCore_changing (st : ManagerState) (ip : String) :
    (onChangedIPCore st ip).isCurrentlyChanging = false := rfl

theorem onChangedIP_some_err (st : ManagerState) (now : Nat) (c : Circuit) (ip : String)
    (e : JSErr) (h : onChangedIP st now c (some ip) = .error e) : e = JSErr.typeErr := by
  simp only [onChangedIP] at h
  split at h
  · rename_i e2 heq
    injection h with h2
    rw [← h2]
    split at heq
    · exact freeIPLoop_err_typeErr now _ _ _ heq
    · exact absurd heq (by simp)
  · exact absurd h (by simp)

/-! The claims. -/

/-- C1: the claim states that _onUnrequestedIPChange copies, for each
registered action, exactly the trailing timestamps of the old IP strictly
newer than circuit.lastIPPollTime into the series of the new IP (three
entries in the spec scenario).  Evaluating the embedded source on that
scenario (three actions at 1001, 1002, 1003, last poll at 1000) shows the
trailing count is indeed 3, but actionStats.slice(0, -3) copies the
COMPLEMENT, so the new IP ends with an empty series while the old IP keeps
its three entries: the code contradicts its own comment about cataloguing
the requests since the last poll toward both IPs. -/
theorem C1_ambiguous_copy_evaluated :
    (onUnrequestedIPChange c1St 2000 c1Circ "5.6.7.8").map
        (fun r => ((omLookup r.1.reqStats "1.2.3.4").map (fun e => omLookup e "api"),
                   (omLookup r.1.reqStats "5.6.7.8").map (fun e => omLookup e "api")))
      = .ok (some (some [1001, 1002, 1003]), some (some [])) ∧
    trailingCount 1000 [1001, 1002, 1003] = 3 := ⟨rfl, rfl⟩

/-- C2 counterexample: the claim states that a blacklisted IP is
unavailable even when never tracked, but _isIPAvailableForRequests checks
freshness BEFORE the blacklist, so the blacklisted default IP with no rate
store entry is reported available. -/
theorem C2_blacklist_fresh_counterexample :
    isIPAvailableForRequests c2St 0 "163.172.67.180" (some "api") = .ok (c2St, true) ∧
    "163.172.67.180" ∈ c2St.blacklistedIPs ∧
    omLookup c2St.reqStats "163.172.67.180" = none := ⟨rfl, by decide, rfl⟩

/-- C2 amended: for every blacklisted IP that is present in the rate
store, isAvailable returns false for every action argument, regardless of
the stored series. -/
theorem C2_blacklist_tracked_amended (st : ManagerState) (now : Nat) (ip : String)
    (a : Option String) (e : ObjMap (List Nat))
    (h1 : omLookup st.reqStats ip = some e) (h2 : ip ∈ st.blacklistedIPs) :
    isIPAvailableForRequests st now ip a = .ok (st, false) := by
  simp [isIPAvailableForRequests, h1, h2]

/-- C2 witness: the tracked blacklisted default IP is refused. -/
theorem C2_blacklist_tracked_witness :
    isIPAvailableForRequests c2TrackedSt 0 "163.172.67.180" (some "api")
      = .ok (c2TrackedSt, false) :=
  C2_blacklist_tracked_amended c2TrackedSt 0 "163.172.67.180" (some "api")
    [("api", [1])] rfl (by decide)

/-- C3: the claim states that with no exclusion and a healthy circuit
present, _getRandomCircuit with skipUnhealthy never returns an unhealthy
circuit.  Evaluating the embedded loop on a two-circuit pool (healthy,
unhealthy) with the draw selecting index 1 returns the unhealthy circuit:
the JS continue inside the do-while jumps to the while condition, which is
false when circuitToOmit is null, so the denied circuit is returned. -/
theorem C3_unhealthy_returned_evaluated :
    getRandomCircuit c3St none true [1] = .picked (some c3Unhealthy) ∧
    c3Unhealthy.isHealthy = false ∧
    c3Healthy.isHealthy = true ∧
    c3St.circuits = [c3Healthy, c3Unhealthy] := ⟨rfl, rfl, rfl, rfl⟩

/-- C4: the claim states that _removeCircuit removes a cycling circuit
from the cycling pool and a named circuit from the named registry without
error.  Evaluating the embedded source: removing the cycling circuit
leaves the cycling pool still holding it (ref 0) and the named registry
untouched, and removing the named circuit dies because it is searched for
in this.circuits; the branches are inverted relative to addCircuit. -/
theorem C4_remove_inverted_evaluated :
    (removeCircuit c4St c4Cycling).map
        (fun r => (r.1.circuits.map (fun x => x.ref), r.1.namedCircuits.map (fun kv => kv.1)))
      = .ok ([0], ["login_proxy"]) ∧
    removeCircuit c4St c4Named = .error (.die notInPoolMsg) ∧
    c4Cycling.addToCyclingCircuitPool = true ∧
    c4Named.addToCyclingCircuitPool = false := ⟨rfl, rfl, rfl, rfl⟩

/-- C5: whenever _onChangedIP completes with newIp set, the circuit holds
the new IP, its poll time is stamped to now, the changing gate is false,
the waiter queue is empty, and the fired resolutions are exactly the
queued waiters in FIFO order, each resolved once with true; with newIp
unset it dies with the missing-IP error and resolves nothing. -/
theorem C5_onChangedIP_postconditions (st st2 : ManagerState) (now : Nat) (c c2 : Circuit)
    (ip : String) (fired : List (Nat × Bool))
    (h : onChangedIP st now c (some ip) = .ok (st2, c2, fired)) :
    c2.activeExitNodeIP = some ip ∧
    c2.lastIPPollTime = now ∧
    st2.isCurrentlyChanging = false ∧
    st2.pendingCallbacks = [] ∧
    fired = st.pendingCallbacks.map (fun w => (w, true)) ∧
    onChangedIP st now c none = .error (.die missingIPMsg) := by
  simp only [onChangedIP] at h
  split at h
  · exact absurd h (by simp)
  · rename_i st4 heq
    rw [Except.ok.injEq, Prod.mk.injEq, Prod.mk.injEq] at h
    obtain ⟨h1, h2, h3⟩ := h
    have hq : st4.pendingCallbacks = st.pendingCallbacks ∧
        st4.isCurrentlyChanging = false := by
      split at heq
      · have hpres := freeIPLoop_preserves now _ _ _ heq
        exact ⟨hpres.1.trans (onChangedIPCore_pc st ip),
               hpres.2.trans (onChangedIPCore_changing st ip)⟩
      · have h4 : onChangedIPCore st ip = st4 := by
          injection heq
        rw [← h4]
        exact ⟨onChangedIPCore_pc st ip, onChangedIPCore_changing st ip⟩
    refine ⟨?_, ?_, ?_, ?_, ?_, rfl⟩
    · rw [← h2]
    · rw [← h2]
    · rw [← h1]
      exact hq.2
    · rw [← h1]
    · rw [← h3, hq.1]

/-- C5 witness: the postconditions at the concrete two-waiter state. -/
theorem C5_onChangedIP_witness :
    c5CircAfter.activeExitNodeIP = some "9.9.9.9" ∧
    c5CircAfter.lastIPPollTime = 1000 ∧
    c5StAfter.isCurrentlyChanging = false ∧
    c5StAfter.pendingCallbacks = [] := by
  have h := C5_onChangedIP_postconditions c5St c5StAfter 1000 c5Circ c5CircAfter "9.9.9.9"
    [(0, true), (1, true)] rfl
  exact ⟨h.1, h.2.1, h.2.2.1, h.2.2.2.1⟩

/-- C6: the claim states that _definitivelyChangeToAvailableIP performs up
to MAX_CHANGE_TRIES rotate-and-probe iterations.  Under "use strict" the
function reads the undeclared identifier actualExitIP before the loop and
therefore throws a ReferenceError on every call; no rotation or probe ever
happens. -/
theorem C6_reference_error_always (st : ManagerState) (c : Circuit) :
    definitivelyChangeToAvailableIP st c = .error JSErr.refErr := rfl

/-- C7 counterexample: the claim states that when the current IP is
unavailable, changeIPIfNecessary invokes forceIPChangeImmediately and
returns true.  On a cycling non-tor circuit at its limit, the call rebinds
the client and returns the undefined result of _changeToRandomCircuit
(none), not true. -/
theorem C7_returns_undefined_counterexample :
    (changeIPIfNecessary c7Client c7St 100 "api" 0 []).map
        (fun o => o.map (fun r => r.2.2)) = .ok (some none) ∧
    c7Circ.addToCyclingCircuitPool = true ∧
    c7Circ.isLocalTor = false := ⟨rfl, rfl, rfl⟩

/-- C7 amended: changeIPIfNecessary dies with the rigid-misuse message on
a non-cycling circuit; returns false when the current IP is available; and
otherwise returns exactly the propagated result of
forceIPChangeImmediately, never true: for a cycling non-tor circuit that
result is the undefined value of the rebind, and for a local-tor circuit
the argument-less manager call throws a TypeError at the eager DEBUG
template before the changing-gate check. -/
theorem C7_probe_or_change_amended (cl : Client) (c : Circuit) (st : ManagerState)
    (now : Nat) (a : String) (wid : Nat) (draws : List Nat) (hc : cl.circuit = some c) :
    (c.addToCyclingCircuitPool = false →
        changeIPIfNecessary cl st now a wid draws = .error (.die rigidMisuseMsg)) ∧
    (∀ st2 : ManagerState, c.addToCyclingCircuitPool = true →
        isIPAvailableForRequests st now (jsKey c.activeExitNodeIP) (some a) = .ok (st2, true) →
        changeIPIfNecessary cl st now a wid draws = .ok (some (cl, st2, some false))) ∧
    (∀ st2 : ManagerState, c.addToCyclingCircuitPool = true →
        isIPAvailableForRequests st now (jsKey c.activeExitNodeIP) (some a) = .ok (st2, false) →
        changeIPIfNecessary cl st now a wid draws = forceIPChangeImmediately cl st2 wid draws) ∧
    (∀ st2 : ManagerState, c.addToCyclingCircuitPool = true → c.isLocalTor = true →
        isIPAvailableForRequests st now (jsKey c.activeExitNodeIP) (some a) = .ok (st2, false) →
        changeIPIfNecessary cl st now a wid draws = .error JSErr.typeErr) := by
  refine ⟨?_, ?_, ?_, ?_⟩
  · intro hr
    simp [changeIPIfNecessary, hc, hr]
  · intro st2 hr hav
    simp [changeIPIfNecessary, hc, hr, hav]
  · intro st2 hr hav
    simp [changeIPIfNecessary, hc, hr, hav]
  · intro st2 hr hlt hav
    simp [changeIPIfNecessary, hc, hr, hav, forceIPChangeImmediately, hlt,
      forceIPChangeImmediatelyMgr]

/-- C7 witness: the rigid client dies with the rigid-misuse message. -/
theorem C7_probe_or_change_witness :
    changeIPIfNecessary c7RigidClient c7St 100 "api" 0 [] = .error (.die rigidMisuseMsg) :=
  (C7_probe_or_change_amended c7RigidClient c7RigidCirc c7St 100 "api" 0 [] rfl).1 rfl

/-- C8 counterexample: the claim states that adding two non-cycling
circuits with the same identifier fails on the second add; evaluating the
embedded addCircuit twice with identical named non-cycling details
succeeds both times (the registry entry is silently replaced), because
_hasCircuit scans only this.circuits. -/
theorem C8_named_duplicate_counterexample :
    exceptIsOk ((addCircuit c8St c8Args 0 5 "1.1.1.1").bind
        (fun r => addCircuit r.1 c8Args 1 6 "1.1.1.1")) = true ∧
    (mkProxyCircuit c8Args 0).getIdentifier = (mkProxyCircuit c8Args 1).getIdentifier :=
  ⟨rfl, rfl⟩

/-- C8 amended: addCircuit fails with the duplicate message exactly when a
circuit already in the CYCLING pool has the same identifier; the named
registry is never consulted by the duplicate check. -/
theorem C8_duplicate_iff_cycling_pool (st : ManagerState) (d : CircuitArgs) (ref now : Nat)
    (extIp : String) :
    addCircuit st d ref now extIp = .error (.die dupCircuitMsg) ↔
      hasCircuit st (mkProxyCircuit d ref) = true := by
  constructor
  · intro h
    by_contra hnc
    simp only [addCircuit] at h
    rw [if_neg hnc] at h
    cases ho : onChangedIP st now (mkProxyCircuit d ref) (some extIp) with
    | error e =>
        simp only [ho] at h
        injection h with h2
        have he := onChangedIP_some_err _ _ _ _ _ ho
        rw [he] at h2
        exact JSErr.noConfusion h2
    | ok t =>
        obtain ⟨st1, c1, fired⟩ := t
        simp only [ho] at h
        cases hcp : c1.addToCyclingCircuitPool with
        | true => simp [hcp] at h
        | false =>
            cases hn : jsTruthyStr c1.name with
            | true => simp [hcp, hn] at h
            | false =>
                simp only [hcp, hn, Bool.false_eq_true, if_false] at h
                injection h with h2
                injection h2 with h3
                exact absurd h3 (by decide)
  · intro h
    simp only [addCircuit]
    rw [if_pos h]

/-- C9: the claim states the default poll interval is 5 s for a local tor
circuit and 2 min otherwise.  Because the defaulting line of the
ProxyCircuit constructor runs before Object.assign and its result is then
overwritten by the null default, every circuit constructed without an
explicit poll_wait_interval ends with a null interval, never 5000 nor
120000. -/
theorem C9_poll_interval_null (args : CircuitArgs) (ref : Nat)
    (h : args.poll_wait_interval = none) :
    (mkProxyCircuit args ref).poll_wait_interval = none ∧
    (mkProxyCircuit args ref).poll_wait_interval ≠ some 5000 ∧
    (mkProxyCircuit args ref).poll_wait_interval ≠ some 120000 := by
  refine ⟨?_, ?_, ?_⟩ <;> simp [mkProxyCircuit, h]

/-- C9 witness: the README local-tor circuit details yield a null poll
interval. -/
theorem C9_poll_interval_null_witness :
    (mkProxyCircuit c9Args 0).poll_wait_interval = none ∧
    (mkProxyCircuit c9Args 0).poll_wait_interval ≠ some 5000 ∧
    (mkProxyCircuit c9Args 0).poll_wait_interval ≠ some 120000 :=
  C9_poll_interval_null c9Args 0 rfl

/-- C10: _preenOldRequestsForIP reads the series of every registered
action, so registering a new action after an IP entry exists makes both
the preen and isAvailable on that IP throw a TypeError instead of treating
the missing series as empty; when every registered action has a series the
preen succeeds; and initialization creates series only for the actions
registered at that moment. -/
theorem C10_preen_requires_all_series (st : ManagerState) (now lim T : Nat)
    (ip ip2 a k : String) (e : ObjMap (List Nat))
    (hip : omLookup st.reqStats ip = some e)
    (hbl : ip ∉ st.blacklistedIPs)
    (hk : omLookup e k = none) :
    preenOldRequestsForIP (addRateLimitActionKey st k lim T) now ip = .error JSErr.typeErr ∧
    isIPAvailableForRequests (addRateLimitActionKey st k lim T) now ip (some a)
      = .error JSErr.typeErr ∧
    ((∀ p ∈ st.actionResetTimes, (omLookup e p.1).isSome = true) →
        exceptIsOk (preenOldRequestsForIP st now ip) = true) ∧
    (omLookup st.reqStats ip2 = none →
        omLookup (initIPDataIfMissing st ip2).reqStats ip2
          = some (st.actionLimits.map (fun p => (p.1, ([] : List Nat))))) := by
  have hmem := omSet_key_mem st.actionResetTimes k T
  have herr := preenActions_err_of_missing now k _ e hmem hk
  have h1 : preenOldRequestsForIP (addRateLimitActionKey st k lim T) now ip
      = .error JSErr.typeErr := by
    simp [preenOldRequestsForIP, addRateLimitActionKey, hip, herr]
  refine ⟨h1, ?_, ?_, ?_⟩
  · have hl : omLookup (addRateLimitActionKey st k lim T).reqStats ip = some e := hip
    have hbl2 : ip ∉ (addRateLimitActionKey st k lim T).blacklistedIPs := hbl
    simp only [isIPAvailableForRequests, hl]
    rw [if_neg hbl2]
    simp only [h1]
  · intro hall
    have hok := preenActions_ok_of_all_present now st.actionResetTimes e hall
    cases hpa : preenActions now (some e) st.actionResetTimes with
    | error e2 =>
        rw [hpa] at hok
        simp [exceptIsOk] at hok
    | ok o =>
        cases o <;> simp [preenOldRequestsForIP, hip, hpa, exceptIsOk]
  · intro hip2
    simp [initIPDataIfMissing, hip2, omLookup_omSet_self]

/-- C10 witness: after registering newAct on a state tracking 5.5.5.5 with
a series only for api, isAvailable on that IP throws a TypeError. -/
theorem C10_preen_requires_all_series_witness :
    isIPAvailableForRequests (addRateLimitActionKey c10St "newAct" 1 50) 200 "5.5.5.5"
      (some "api") = .error JSErr.typeErr :=
  (C10_preen_requires_all_series c10St 200 1 50 "5.5.5.5" "9.9.9.9" "api" "newAct"
      [("api", [100])] rfl (by decide) rfl).2.1

end ProxyRate
